import Mathlib

/-!
Verification of the PEARL agent orchestrator (main.py, pearl_agent.py,
memory.py, tools.py) against its natural-language specification.

The embedding translates the Python source into Lean definitions:
  * the Task data model and the task registry (a Python dict, embedded as an
    insertion-ordered association list with overwrite-in-place semantics);
  * the agent components self_assess, adaptive_plan, execute_goal_oriented,
    integrate_experience, and the memory manager add_memory and
    retrieve_relevant_memories;
  * the orchestrator run_pearl_cycle with its per-cycle dispatch loop.
External collaborators (the generative backend, json.loads, the chroma
similarity backend, the Python hash builtin, the web-search tool) are
abstracted as oracle parameters, as the spec places them out of scope;
fallible ones return Except. A successful json.loads yields an untyped
JsonVal value, and each component operates on it exactly as the Python
code does: the Assessor returns it unvalidated, the Planner builds tasks
through the caught-TypeError path of Task(**data), and the Integrator
follows the truthiness and subscripting of the learnings value, including
the uncaught TypeError that a truthy non-subscriptable value raises past
its boundary. The dispatch loop is instrumented with a trace of dispatch
events, each recording the registry at the moment of dispatch.
The concurrency governor (asyncio.Semaphore of capacity 5) is embedded as a
transition system on the count of in-flight calls.
-/

namespace Pearl

/-- TaskStatus enum from pearl_agent.py. -/
inductive TaskStatus where
  | pending
  | in_progress
  | completed
  | failed
deriving DecidableEq, Repr

/-- Task dataclass from pearl_agent.py. -/
structure Task where
  id : String
  description : String
  priority : Int
  status : TaskStatus := TaskStatus.pending
  dependencies : List String := []
  result : Option String := none
  tool : Option String := none
  tool_input : Option String := none
deriving DecidableEq, Repr

/-- Lookup in a Python dict embedded as an insertion-ordered association list. -/
def dictLookup {α : Type} (d : List (String × α)) (k : String) : Option α :=
  match d with
  | [] => none
  | (k0, v) :: rest => if k0 = k then some v else dictLookup rest k

/-- Membership test of a key, as the Python `in` operator on a dict. -/
def dictContains {α : Type} (d : List (String × α)) (k : String) : Bool :=
  (dictLookup d k).isSome

/-- Assignment `d[k] = v` on a Python dict: an existing key keeps its
position and gets the new value, a new key is appended. -/
def dictInsert {α : Type} : List (String × α) → String → α → List (String × α)
  | [], k, v => [(k, v)]
  | (k0, v0) :: rest, k, v =>
    if k0 = k then (k, v) :: rest else (k0, v0) :: dictInsert rest k v

/-- Aggregate context counters from pearl_agent.py. -/
structure Context where
  completed_tasks : Nat
  total_tasks : Nat
deriving DecidableEq, Repr

/-- PEARLAgent._dependencies_met: every dependency identifier is either
absent from the task registry or refers to a completed task. -/
def dependencies_met (tasks : List (String × Task)) (task : Task) : Bool :=
  task.dependencies.all (fun dep_id =>
    match dictLookup tasks dep_id with
    | none => true
    | some t => t.status == TaskStatus.completed)

/-- PEARLAgent._update_context: recompute the counters from the registry. -/
def update_context (tasks : List (String × Task)) : Context :=
  { completed_tasks := (tasks.filter (fun p => p.2.status == TaskStatus.completed)).length
    total_tasks := tasks.length }

/-- A decoded JSON value, the result of a successful json.loads: the
Python object the components operate on untyped. Numeric payloads are
embedded as integers; no claim in this file depends on non-integer
numerics, and floating point is outside the shallow embedding. -/
inductive JsonVal where
  | jnull
  | jbool (b : Bool)
  | jnum (n : Int)
  | jstr (s : String)
  | jarr (xs : List JsonVal)
  | jobj (fields : List (String × JsonVal))
deriving Repr

/-- Python truthiness of a decoded JSON value, as tested by the
`experience.get("learnings")` condition in pearl_agent.py. -/
def jsonTruthy : JsonVal → Bool
  | JsonVal.jnull => false
  | JsonVal.jbool b => b
  | JsonVal.jnum n => n != 0
  | JsonVal.jstr s => !s.isEmpty
  | JsonVal.jarr xs => !xs.isEmpty
  | JsonVal.jobj fs => !fs.isEmpty

/-- Single-quote character, used by the memory text format and the
Python repr rendering. -/
def sq : String := String.singleton (Char.ofNat 39)

mutual

/-- Python repr() of a decoded JSON value, used by str() for the
non-string cases interpolated into f-strings. -/
def pyRepr : JsonVal → String
  | JsonVal.jnull => "None"
  | JsonVal.jbool true => "True"
  | JsonVal.jbool false => "False"
  | JsonVal.jnum n => toString n
  | JsonVal.jstr s => sq ++ s ++ sq
  | JsonVal.jarr xs => "[" ++ pyReprSeq xs ++ "]"
  | JsonVal.jobj fs => "\x7b" ++ pyReprFields fs ++ "\x7d"

/-- Comma-separated repr of a JSON array body. -/
def pyReprSeq : List JsonVal → String
  | [] => ""
  | [x] => pyRepr x
  | x :: xs => pyRepr x ++ ", " ++ pyReprSeq xs

/-- Comma-separated repr of a JSON object body. -/
def pyReprFields : List (String × JsonVal) → String
  | [] => ""
  | [(k, v)] => sq ++ k ++ sq ++ ": " ++ pyRepr v
  | (k, v) :: fs => sq ++ k ++ sq ++ ": " ++ pyRepr v ++ ", " ++ pyReprFields fs

end

/-- Python str() of a decoded JSON value: the string itself for a string,
repr-style rendering otherwise. -/
def pyStr : JsonVal → String
  | JsonVal.jstr s => s
  | v => pyRepr v

/-- Modelled from the spec: the fallback assessment dict literal at
src/pearl_agent.py line 176 is elided in the source text; only
progress_score = 10 is visible there. The spec requires a fixed
default/sentinel value, so the remaining entries are fixed constants. -/
def defaultAssessmentJson : JsonVal :=
  JsonVal.jobj
    [("progress_score", JsonVal.jnum 10),
     ("gaps", JsonVal.jarr [JsonVal.jstr "unknown"]),
     ("risks", JsonVal.jarr [JsonVal.jstr "unknown"]),
     ("recommendations", JsonVal.jarr [JsonVal.jstr "reassess"])]

/-- Modelled from the spec: the fallback task literal at
src/pearl_agent.py line 218 is elided in the source text; only the
identifier "fallback" is visible there. The spec requires a documented
fixed fallback task set, so the remaining fields are fixed constants. -/
def fallbackTasks : List Task :=
  [{ id := "fallback", description := "fallback task", priority := 1 }]

/-- Modelled from the spec: the default experience dict literal at
src/pearl_agent.py line 261 is elided in the source text. The spec
requires a fixed default value, so its entries are fixed constants. -/
def defaultExperienceJson : JsonVal :=
  JsonVal.jobj
    [("learnings", JsonVal.jarr [JsonVal.jstr "no learning extracted"]),
     ("adjustments", JsonVal.jarr []),
     ("confidence_boost", JsonVal.jnum 0)]

/-- A list of dependency identifiers from a decoded JSON value. -/
def strListFromJson : JsonVal → Option (List String)
  | JsonVal.jarr xs =>
    xs.mapM (fun x => match x with | JsonVal.jstr s => some s | _ => none)
  | _ => none

/-- Dependencies field of a task object: absent means the dataclass
default, the empty list. -/
def strListFromJsonOpt : Option JsonVal → Option (List String)
  | none => some []
  | some v => strListFromJson v

/-- Optional string field of a task object (tool, tool_input): absent or
null means the dataclass default None. -/
def optStrFromJsonOpt : Option JsonVal → Option (Option String)
  | none => some none
  | some JsonVal.jnull => some none
  | some (JsonVal.jstr s) => some (some s)
  | some _ => none

/-- Task(**data) on one element of the decoded planner output: succeeds
for a JSON object whose keys are among the six the planning prompt
requests, with id, description and priority present and the values of
the types the schema requests; none stands for the TypeError that
Task(**data) raises on a non-dict element or unexpected keys. Objects
with conforming keys but ill-typed values, which the untyped Python
dataclass would accept, are folded into the same fallback path; no
theorem in this file relies on the behavior of such ill-typed tasks. -/
def taskFromJson : JsonVal → Option Task
  | JsonVal.jobj fields =>
    if (fields.map Prod.fst).all (fun k =>
        (k == "id") || (k == "description") || (k == "priority")
          || (k == "dependencies") || (k == "tool") || (k == "tool_input")) then
      match dictLookup fields "id", dictLookup fields "description",
            dictLookup fields "priority" with
      | some (JsonVal.jstr i), some (JsonVal.jstr d), some (JsonVal.jnum pri) =>
        match strListFromJsonOpt (dictLookup fields "dependencies"),
              optStrFromJsonOpt (dictLookup fields "tool"),
              optStrFromJsonOpt (dictLookup fields "tool_input") with
        | some deps, some tl, some ti =>
          some { id := i, description := d, priority := pri,
                 dependencies := deps, tool := tl, tool_input := ti }
        | _, _, _ => none
      | _, _, _ => none
    else none
  | _ => none

/-- The list comprehension [Task(**data) for data in task_data]: a task
list for a JSON array of conforming task objects, none (the caught
TypeError path) otherwise. Degenerate Python iterables such as an empty
string or an empty dict, which would comprehend to an empty task list,
are folded into the fallback path; no claim depends on them. -/
def tasksFromJson : JsonVal → Option (List Task)
  | JsonVal.jarr xs => xs.mapM taskFromJson
  | _ => none

/-- The memory store: the chroma collection as a list of (id, document)
records, in insertion order. -/
structure MemStore where
  records : List (String × String)
deriving DecidableEq, Repr

/-- Oracle for the external collaborators the core depends on: the
generative backend (one field per call site, each a function of the
semantically relevant prompt inputs), json.loads (none standing for
json.JSONDecodeError), the web-search tool, the chroma add/query
primitives, and the Python hash builtin. All fallible ones return
Except, an error standing for a raised exception. -/
structure Oracle where
  assessResponse : Nat → String → Context → String → Except String String
  planResponse : Nat → String → JsonVal → Except String String
  execResponse : Nat → Context → Task → Except String String
  integrateResponse : Nat → Task → Except String String
  jsonLoads : String → Option JsonVal
  toolRun : String → Option String → Except String String
  memAdd : String → String → Except String Unit
  memQuery : String → Nat → Except String (List String)
  hashFn : String → Int

/-- The memory text built by MemoryManager.add_memory. -/
def memoryTextOf (task_description learning : String) : String :=
  "From the task " ++ sq ++ task_description ++ sq ++ ", I learned: " ++ learning

/-- MemoryManager.add_memory: build the record, compute the hash-derived
identifier, and append under the write lock; a failure of the underlying
collection add inside the critical section is caught and swallowed. -/
def add_memory (o : Oracle) (store : MemStore) (task_description learning : String) :
    Except String MemStore :=
  let memory_text := memoryTextOf task_description learning
  let memory_id := toString (o.hashFn memory_text)
  match o.memAdd memory_id memory_text with
  | Except.ok _ => Except.ok { records := store.records ++ [(memory_id, memory_text)] }
  | Except.error _ => Except.ok store

/-- The document list requested from the similarity backend by
retrieve_relevant_memories: n_results is clamped to the stored count. -/
def retrieveQueriedDocs (o : Oracle) (store : MemStore) (query : String) (n_results : Nat) :
    Except String (List String) :=
  o.memQuery query (min n_results store.records.length)

/-- Formatting of retrieved memories in retrieve_relevant_memories. -/
def formatMemories (docs : List String) : String :=
  docs.foldl (fun acc mem => acc ++ "- " ++ mem ++ "\n") "Relevant Past Learnings:\n"

/-- MemoryManager.retrieve_relevant_memories: sentinel on an empty store,
query clamped to min(n_results, count) otherwise, errors caught and
replaced by a sentinel string. -/
def retrieve_relevant_memories (o : Oracle) (store : MemStore) (query : String)
    (n_results : Nat) : String :=
  if store.records.length = 0 then "No memories available yet."
  else
    match retrieveQueriedDocs o store query n_results with
    | Except.error _ => "Could not retrieve memories due to an error."
    | Except.ok memories =>
      if memories = [] then "No relevant memories found."
      else formatMemories memories

/-- PEARLAgent.self_assess: retrieve memories, call the backend, then
return json.loads(response_text) directly: a decodable response is
returned as-is, unvalidated, whatever its shape; only a
json.JSONDecodeError is caught and replaced by the default dict. -/
def self_assess (o : Oracle) (cyc : Nat) (goal : String) (ctx : Context)
    (mem : MemStore) : Except String JsonVal :=
  let relevant_memories := retrieve_relevant_memories o mem goal 3
  match o.assessResponse cyc goal ctx relevant_memories with
  | Except.error e => Except.error e
  | Except.ok response_text =>
    match o.jsonLoads response_text with
    | some v => Except.ok v
    | none => Except.ok defaultAssessmentJson

/-- PEARLAgent.adaptive_plan: call the backend, json-decode the response
and build the tasks with [Task(**data) for data in task_data]; both a
json.JSONDecodeError and the TypeError of a non-conforming decoded value
are caught and replaced by the fallback task set. -/
def adaptive_plan (o : Oracle) (cyc : Nat) (goal : String)
    (assessment : JsonVal) : Except String (List Task) :=
  match o.planResponse cyc goal assessment with
  | Except.error e => Except.error e
  | Except.ok response_text =>
    match o.jsonLoads response_text with
    | none => Except.ok fallbackTasks
    | some task_data =>
      match tasksFromJson task_data with
      | some ts => Except.ok ts
      | none => Except.ok fallbackTasks

/-- The tool registry from tools.py: the names of the available tools. -/
def toolNames : List String := ["web_search"]

/-- PEARLAgent.execute_goal_oriented: run the named tool when the task
carries a truthy tool name registered in the tool registry, otherwise a
governor-gated backend reasoning call. -/
def execute_goal_oriented (o : Oracle) (cyc : Nat) (ctx : Context) (task : Task) :
    Except String String :=
  match task.tool with
  | some tname =>
    if tname ≠ "" ∧ tname ∈ toolNames then o.toolRun tname task.tool_input
    else o.execResponse cyc ctx task
  | none => o.execResponse cyc ctx task

/-- PEARLAgent.integrate_experience: call the backend and json-decode the
response. The except clause at pearl_agent.py line 149 catches only
json.JSONDecodeError and AttributeError: a decode failure and a .get call
on a decoded non-dict yield the default; a decoded dict whose truthy
learnings value is a non-empty list or string is subscripted at 0 and its
first element (first character for a string) is stringified and added to
the memory store; but a truthy learnings value of any other shape makes
the `experience["learnings"][0]` subscript raise an uncaught TypeError
(KeyError for a dict), which propagates past the boundary of the
component; the error string stands for str(e) of that exception. When the
task status is not Completed the `and` short-circuits and the decoded
value is returned as-is. -/
def integrate_experience (o : Oracle) (cyc : Nat) (task : Task)
    (mem : MemStore) : Except String (JsonVal × MemStore) :=
  match o.integrateResponse cyc task with
  | Except.error e => Except.error e
  | Except.ok response_text =>
    match o.jsonLoads response_text with
    | none => Except.ok (defaultExperienceJson, mem)
    | some experience =>
      if task.status = TaskStatus.completed then
        match experience with
        | JsonVal.jobj fields =>
          match dictLookup fields "learnings" with
          | none => Except.ok (experience, mem)
          | some lv =>
            if jsonTruthy lv then
              match lv with
              | JsonVal.jarr (x :: _) =>
                match add_memory o mem task.description (pyStr x) with
                | Except.ok m => Except.ok (experience, m)
                | Except.error e => Except.error e
              | JsonVal.jstr s =>
                match s.data with
                | c :: _ =>
                  match add_memory o mem task.description (String.singleton c) with
                  | Except.ok m => Except.ok (experience, m)
                  | Except.error e => Except.error e
                | [] => Except.error "IndexError: string index out of range"
              | _ => Except.error "TypeError: the learnings value is not subscriptable"
            else Except.ok (experience, mem)
        | _ => Except.ok (defaultExperienceJson, mem)
      else Except.ok (experience, mem)

/-- The ordering used by run_pearl_cycle: a may be dispatched before b when
the priority of b is at most the priority of a. -/
def taskGE (a b : Task) : Prop := b.priority ≤ a.priority

instance : DecidableRel taskGE :=
  fun a b => inferInstanceAs (Decidable (b.priority ≤ a.priority))

instance : IsTotal Task taskGE :=
  ⟨fun a b => (Int.le_total b.priority a.priority).imp id id⟩

instance : IsTrans Task taskGE :=
  ⟨fun _ _ _ hab hbc => le_trans hbc hab⟩

/-- The sort at main.py line 68: sorted(tasks, key priority, reverse), a
stable sort by priority descending, embedded as an insertion sort with the
taskGE relation (the unique stable sort for that relation). -/
def sortTasksByPriorityDesc (tasks : List Task) : List Task :=
  tasks.insertionSort taskGE

/-- A dispatch event of the cycle loop: the task that passed the
dependency gate, together with the registry at the moment of dispatch. -/
structure DispatchEvent where
  registryAtDispatch : List (String × Task)
  task : Task
deriving DecidableEq, Repr

/-- One entry of a cycle result list, main.py line 75. -/
structure CycleResult where
  task : String
  result : String
  learning : JsonVal
deriving Repr

/-- Agent state: the task registry and the aggregate context. -/
structure AgentState where
  tasks : List (String × Task)
  context : Context
deriving DecidableEq, Repr

/-- The inner loop of run_pearl_cycle (main.py lines 68 to 75) over the
sorted task list: a task whose dependencies are met is dispatched,
executed, marked completed, written to the registry and integrated; an
ineligible task is skipped. The trace of dispatch events is accumulated
even when a later step of the cycle raises. -/
def dispatchLoop (o : Oracle) (cyc : Nat) :
    List Task → AgentState → MemStore →
    List DispatchEvent × Except String (AgentState × MemStore × List CycleResult)
  | [], ag, mem => ([], Except.ok (ag, mem, []))
  | task :: rest, ag, mem =>
    if dependencies_met ag.tasks task then
      let ev : DispatchEvent := { registryAtDispatch := ag.tasks, task := task }
      match execute_goal_oriented o cyc ag.context task with
      | Except.error e => ([ev], Except.error e)
      | Except.ok result =>
        let done : Task := { task with result := some result, status := TaskStatus.completed }
        let ag2 : AgentState := { ag with tasks := dictInsert ag.tasks done.id done }
        match integrate_experience o cyc done mem with
        | Except.error e => ([ev], Except.error e)
        | Except.ok (experience, mem2) =>
          let (evs, r) := dispatchLoop o cyc rest ag2 mem2
          (ev :: evs,
            match r with
            | Except.ok (agF, memF, results) =>
              Except.ok (agF, memF,
                { task := task.description, result := result, learning := experience } :: results)
            | Except.error e => Except.error e)
    else
      dispatchLoop o cyc rest ag mem

/-- One full cycle of run_pearl_cycle: assess, plan, dispatch the sorted
tasks, and recompute the context from the registry. -/
def runOneCycle (o : Oracle) (cyc : Nat) (goal : String) (ag : AgentState)
    (mem : MemStore) :
    List DispatchEvent × Except String (AgentState × MemStore × JsonVal × List CycleResult)
    :=
  match self_assess o cyc goal ag.context mem with
  | Except.error e => ([], Except.error e)
  | Except.ok assessment =>
    match adaptive_plan o cyc goal assessment with
    | Except.error e => ([], Except.error e)
    | Except.ok tasks =>
      match dispatchLoop o cyc (sortTasksByPriorityDesc tasks) ag mem with
      | (evs, Except.error e) => (evs, Except.error e)
      | (evs, Except.ok (ag2, mem2, results)) =>
        let ag3 : AgentState := { ag2 with context := update_context ag2.tasks }
        (evs, Except.ok (ag3, mem2, assessment, results))

/-- A value of the per-job details dict in main.py. -/
inductive DetailVal where
  | str (s : String)
  | cycleStarting
  | cycleDone (assessment : JsonVal) (results : List CycleResult)
deriving Repr

/-- The job record held in the global jobs store of main.py. -/
structure Job where
  status : String
  progress : ℚ
  details : List (String × DetailVal)
deriving Repr

/-- The cycle loop of run_pearl_cycle (main.py lines 61 to 83), with the
job record threaded as explicit state: the cycle key is first set to a
starting marker, the cycle body runs, and on success the progress and the
completed-cycle entry are written; an error carries the job state at the
moment of failure. -/
def cycleLoop (o : Oracle) (goal : String) (iterations : Nat) :
    Nat → Nat → AgentState → MemStore → Job →
    List DispatchEvent × Except (String × Job) (AgentState × MemStore × Job)
  | _, 0, ag, mem, job => ([], Except.ok (ag, mem, job))
  | i, rem + 1, ag, mem, job =>
    let key := "cycle_" ++ toString (i + 1)
    let job1 : Job := { job with details := dictInsert job.details key DetailVal.cycleStarting }
    match runOneCycle o i goal ag mem with
    | (evs, Except.error e) => (evs, Except.error (e, job1))
    | (evs, Except.ok (ag2, mem2, assessment, results)) =>
      let job2 : Job :=
        { job1 with
          progress := ((i : ℚ) + 1) / (iterations : ℚ)
          details := dictInsert job1.details key (DetailVal.cycleDone assessment results) }
      let (evs2, r) := cycleLoop o goal iterations (i + 1) rem ag2 mem2 job2
      (evs ++ evs2, r)

/-- The body of run_pearl_cycle up to the end of the loop: mark the job
in progress, build a fresh agent, and run the cycles. -/
def runPearlLoop (o : Oracle) (goal : String) (iterations : Nat)
    (mem0 : MemStore) :
    List DispatchEvent × Except (String × Job) (AgentState × MemStore × Job) :=
  let job0 : Job :=
    { status := "in_progress", progress := 0, details := [("goal", DetailVal.str goal)] }
  let ag0 : AgentState :=
    { tasks := [], context := { completed_tasks := 0, total_tasks := 0 } }
  cycleLoop o goal iterations 0 iterations ag0 mem0 job0

/-- main.py run_pearl_cycle: on success the job status becomes completed;
an exception anywhere in the loop is caught at the top, the status becomes
failed and the error message is attached to the details. -/
def run_pearl_cycle (o : Oracle) (goal : String) (iterations : Nat)
    (mem0 : MemStore) : Job :=
  match (runPearlLoop o goal iterations mem0).2 with
  | Except.ok (_, _, j) => { j with status := "completed" }
  | Except.error (e, j) =>
    { j with status := "failed", details := dictInsert j.details "error" (DetailVal.str e) }

/-- Capacity of the process-wide API call semaphore, main.py line 26. -/
def apiCallSemaphoreCapacity : Nat := 5

/-- Events of the concurrency governor. -/
inductive GovEvent where
  | acquire
  | release
deriving DecidableEq, Repr

/-- One step of the governor with capacity C acting on the number of
in-flight calls: an acquire blocks (no step) unless the count is below
the capacity, a release decrements the count. -/
def govStep (C : Nat) (n : Nat) : GovEvent → Option Nat
  | GovEvent.acquire => if n < C then some (n + 1) else none
  | GovEvent.release => some (n - 1)

/-- Run of the governor on a list of events. -/
def govRun (C : Nat) : Nat → List GovEvent → Option Nat
  | n, [] => some n
  | n, e :: es =>
    match govStep C n e with
    | some m => govRun C m es
    | none => none

/-- Python str.strip with no argument: drop whitespace from both ends. -/
def pyStrip (s : String) : String :=
  String.mk (((s.data.dropWhile Char.isWhitespace).reverse.dropWhile Char.isWhitespace).reverse)

/-- Python str.lstrip with a character-set argument. -/
def pyLstripSet (cs : List Char) (s : String) : String :=
  String.mk (s.data.dropWhile (fun c => cs.contains c))

/-- Python str.rstrip with a character-set argument. -/
def pyRstripSet (cs : List Char) (s : String) : String :=
  String.mk ((s.data.reverse.dropWhile (fun c => cs.contains c)).reverse)

/-- The backtick character. -/
def backtickChar : Char := Char.ofNat 96

/-- The response cleaning in _generate_content_with_semaphore:
strip, then lstrip over the json-fence character set, then rstrip over
the backtick character set. -/
def cleanResponse (s : String) : String :=
  pyRstripSet [backtickChar]
    (pyLstripSet [backtickChar, Char.ofNat 106, Char.ofNat 115, Char.ofNat 111, Char.ofNat 110]
      (pyStrip s))

/-- PEARLAgent._generate_content_with_semaphore: acquire one governor
unit, issue the backend call, release the unit on both the success and
the failure path; the result text is cleaned on success. The second
component is the governor event footprint of the call. -/
def generate_content_with_semaphore (backend : String → Except String String)
    (prompt : String) : Except String String × List GovEvent :=
  match backend prompt with
  | Except.ok t => (Except.ok (cleanResponse t), [GovEvent.acquire, GovEvent.release])
  | Except.error e => (Except.error e, [GovEvent.acquire, GovEvent.release])

/-! Helper lemmas about the embedded definitions. -/

theorem dictLookup_dictInsert_self {α : Type} (d : List (String × α)) (k : String) (v : α) :
    dictLookup (dictInsert d k v) k = some v := by
  induction d with
  | nil => simp [dictInsert, dictLookup]
  | cons p rest ih =>
    obtain ⟨k0, v0⟩ := p
    by_cases h : k0 = k
    · simp [dictInsert, dictLookup, h]
    · simp [dictInsert, dictLookup, h, ih]

theorem dictLookup_dictInsert_ne {α : Type} (d : List (String × α)) (k q : String) (v : α)
    (h : q ≠ k) : dictLookup (dictInsert d k v) q = dictLookup d q := by
  have hkq : ¬ k = q := fun hh => h hh.symm
  induction d with
  | nil => simp [dictInsert, dictLookup, hkq]
  | cons p rest ih =>
    obtain ⟨k0, v0⟩ := p
    by_cases h0 : k0 = k
    · subst h0
      simp [dictInsert, dictLookup, hkq]
    · simp [dictInsert, dictLookup, h0, ih]

theorem dependencies_met_spec {reg : List (String × Task)} {task : Task}
    (h : dependencies_met reg task = true) :
    ∀ dep ∈ task.dependencies, ∀ t, dictLookup reg dep = some t →
      t.status = TaskStatus.completed := by
  intro dep hdep t ht
  have hall := List.all_eq_true.mp h dep hdep
  rw [ht] at hall
  simpa using hall

theorem dependencies_met_of_absent (reg : List (String × Task)) (task : Task)
    (h : ∀ d ∈ task.dependencies, dictLookup reg d = none) :
    dependencies_met reg task = true := by
  apply List.all_eq_true.mpr
  intro d hd
  rw [h d hd]

theorem dispatchLoop_events_met (o : Oracle) (cyc : Nat) :
    ∀ (ts : List Task) (ag : AgentState) (mem : MemStore),
      ∀ e ∈ (dispatchLoop o cyc ts ag mem).1,
        dependencies_met e.registryAtDispatch e.task = true := by
  intro ts
  induction ts with
  | nil =>
    intro ag mem e he
    simp [dispatchLoop] at he
  | cons task rest ih =>
    intro ag mem e he
    rw [dispatchLoop] at he
    cases hg : dependencies_met ag.tasks task with
    | false =>
      rw [hg] at he
      simp only [Bool.false_eq_true, if_false] at he
      exact ih ag mem e he
    | true =>
      rw [hg] at he
      simp only [if_true] at he
      cases hex : execute_goal_oriented o cyc ag.context task with
      | error err =>
        rw [hex] at he
        simp only [List.mem_singleton] at he
        subst he
        exact hg
      | ok result =>
        rw [hex] at he
        simp only at he
        cases hint : integrate_experience o cyc
            { task with result := some result, status := TaskStatus.completed } mem with
        | error err =>
          rw [hint] at he
          simp only [List.mem_singleton] at he
          subst he
          exact hg
        | ok pr =>
          obtain ⟨experience, mem2⟩ := pr
          rw [hint] at he
          simp only [List.mem_cons] at he
          rcases he with he | he
          · subst he; exact hg
          · exact ih _ mem2 e he

theorem dispatchLoop_events_sublist (o : Oracle) (cyc : Nat) :
    ∀ (ts : List Task) (ag : AgentState) (mem : MemStore),
      ((dispatchLoop o cyc ts ag mem).1.map DispatchEvent.task).Sublist ts := by
  intro ts
  induction ts with
  | nil => intro ag mem; simp [dispatchLoop]
  | cons task rest ih =>
    intro ag mem
    rw [dispatchLoop]
    cases hg : dependencies_met ag.tasks task with
    | false =>
      simp only [Bool.false_eq_true, if_false]
      exact (ih ag mem).cons task
    | true =>
      simp only [if_true]
      cases hex : execute_goal_oriented o cyc ag.context task with
      | error err => simp
      | ok result =>
        simp only
        cases hint : integrate_experience o cyc
            { task with result := some result, status := TaskStatus.completed } mem with
        | error err => simp
        | ok pr =>
          obtain ⟨experience, mem2⟩ := pr
          simp only [List.map_cons]
          exact (ih _ mem2).cons₂ task

theorem runOneCycle_events_met (o : Oracle) (cyc : Nat) (goal : String)
    (ag : AgentState) (mem : MemStore) :
    ∀ e ∈ (runOneCycle o cyc goal ag mem).1,
      dependencies_met e.registryAtDispatch e.task = true := by
  intro e he
  rw [runOneCycle] at he
  cases ha : self_assess o cyc goal ag.context mem with
  | error err => rw [ha] at he; simp at he
  | ok assessment =>
    rw [ha] at he
    simp only at he
    cases hp : adaptive_plan o cyc goal assessment with
    | error err => rw [hp] at he; simp at he
    | ok tasks =>
      rw [hp] at he
      simp only at he
      rcases hdl : dispatchLoop o cyc (sortTasksByPriorityDesc tasks) ag mem with ⟨evs, r⟩
      rw [hdl] at he
      have hmet := dispatchLoop_events_met o cyc (sortTasksByPriorityDesc tasks) ag mem e
      rw [hdl] at hmet
      cases r with
      | error err => simp only at he hmet; exact hmet he
      | ok res =>
        obtain ⟨ag2, mem2, results⟩ := res
        simp only at he hmet
        exact hmet he

theorem cycleLoop_events_met (o : Oracle) (goal : String) (iterations : Nat) :
    ∀ (rem i : Nat) (ag : AgentState) (mem : MemStore) (job : Job),
      ∀ e ∈ (cycleLoop o goal iterations i rem ag mem job).1,
        dependencies_met e.registryAtDispatch e.task = true := by
  intro rem
  induction rem with
  | zero => intro i ag mem job e he; simp [cycleLoop] at he
  | succ n ih =>
    intro i ag mem job e he
    rw [cycleLoop] at he
    rcases hc : runOneCycle o i goal ag mem with ⟨evs, r⟩
    have hmet := runOneCycle_events_met o i goal ag mem e
    rw [hc] at hmet he
    simp only at hmet
    cases r with
    | error err =>
      simp only at he
      exact hmet he
    | ok res =>
      obtain ⟨ag2, mem2, assessment, results⟩ := res
      simp only [List.mem_append] at he
      rcases he with he | he
      · exact hmet he
      · exact ih (i + 1) ag2 mem2 _ e he


/-! Concrete scenarios used by witnesses and counterexamples. -/

/-- A JSON task object of the shape the planning prompt requests. -/
def mkTaskJson (i d : String) (pri : Int) (deps : List String) : JsonVal :=
  JsonVal.jobj
    [("id", JsonVal.jstr i), ("description", JsonVal.jstr d),
     ("priority", JsonVal.jnum pri),
     ("dependencies", JsonVal.jarr (deps.map JsonVal.jstr)),
     ("tool", JsonVal.jnull), ("tool_input", JsonVal.jnull)]

/-- A fully succeeding oracle whose json decoding fails on every
response, for concrete runs. -/
def baseOracle : Oracle :=
  { assessResponse := fun _ _ _ _ => Except.ok "assessment text"
    planResponse := fun _ _ _ => Except.ok "plan text"
    execResponse := fun _ _ t => Except.ok ("result " ++ t.id)
    integrateResponse := fun _ _ => Except.ok "experience text"
    jsonLoads := fun _ => none
    toolRun := fun _ _ => Except.ok "tool output"
    memAdd := fun _ _ => Except.ok ()
    memQuery := fun _ _ => Except.ok []
    hashFn := fun _ => 0 }

/-- baseOracle with the planner response decoding to the given JSON array
of task objects; the other responses still fail to decode. -/
def planOracle (tasks : List JsonVal) : Oracle :=
  { baseOracle with jsonLoads := fun s =>
      if s = "plan text" then some (JsonVal.jarr tasks) else none }

/-- The oracle of Scenario A: the planner produces t1 with priority 5 and
no dependencies and t2 with priority 9 depending on t1. -/
def scenarioAOracle : Oracle :=
  planOracle [mkTaskJson "t1" "task one" 5 [], mkTaskJson "t2" "task two" 9 ["t1"]]

/-- The run of Scenario A: goal G, one iteration. -/
def scenarioARun : List DispatchEvent × Except (String × Job) (AgentState × MemStore × Job) :=
  runPearlLoop scenarioAOracle "G" 1 { records := [] }

/-- The final context of Scenario A. -/
def scenarioAContext : Context :=
  match scenarioARun.2 with
  | Except.ok (ag, _, _) => ag.context
  | Except.error _ => { completed_tasks := 0, total_tasks := 0 }

/-- The final task registry of Scenario A. -/
def scenarioARegistry : List (String × Task) :=
  match scenarioARun.2 with
  | Except.ok (ag, _, _) => ag.tasks
  | Except.error _ => []

/-- A completed task with a result, as integrate_experience receives it
from the dispatch loop. -/
def doneTask : Task :=
  { id := "t", description := "done task", priority := 1,
    status := TaskStatus.completed, result := some "res" }

/-! Claim theorems. -/

/-- C1: for every task dispatched by the cycle loop of the orchestrator,
at the moment of dispatch every dependency identifier of that task that
is present in the task registry refers to a task whose status is
Completed (hence a task with an unmet registry-present dependency is not
dispatched), and dependency identifiers absent from the registry are
treated as trivially satisfied. -/
theorem claim1_registry_deps_completed_at_dispatch
    (o : Oracle) (goal : String) (iterations : Nat) (mem0 : MemStore)
    (e : DispatchEvent) (he : e ∈ (runPearlLoop o goal iterations mem0).1)
    (dep : String) (hdep : dep ∈ e.task.dependencies)
    (t : Task) (ht : dictLookup e.registryAtDispatch dep = some t) :
    t.status = TaskStatus.completed ∧
      ∀ (reg : List (String × Task)) (task : Task),
        (∀ d ∈ task.dependencies, dictLookup reg d = none) →
          dependencies_met reg task = true := by
  constructor
  · have hmet := cycleLoop_events_met o goal iterations iterations 0
      { tasks := [], context := { completed_tasks := 0, total_tasks := 0 } } mem0
      { status := "in_progress", progress := 0, details := [("goal", DetailVal.str goal)] } e
      (by simpa [runPearlLoop] using he)
    exact dependencies_met_spec hmet dep hdep t ht
  · exact dependencies_met_of_absent

/-- Witness scenario for C1: task a (priority 9, no dependencies) is
dispatched first and completed, then task b (priority 5, depending on a)
is dispatched with a present and completed in the registry. -/
def wAtask : Task := { id := "a", description := "first", priority := 9 }

/-- The oracle of the C1 witness run. -/
def claim1Oracle : Oracle :=
  planOracle [mkTaskJson "a" "first" 9 [], mkTaskJson "b" "second" 5 ["a"]]

/-- The dispatch events of the C1 witness run. -/
def claim1Events : List DispatchEvent :=
  (runPearlLoop claim1Oracle "G" 1 { records := [] }).1

/-- The dispatch event of task b in the C1 witness run. -/
def claim1Event : DispatchEvent :=
  claim1Events.getD 1 { registryAtDispatch := [], task := wAtask }

/-- The registry entry of task a at the dispatch of task b. -/
def claim1DepTask : Task :=
  (dictLookup claim1Event.registryAtDispatch "a").getD wAtask

theorem claim1_witness :
    claim1DepTask.status = TaskStatus.completed ∧
      ∀ (reg : List (String × Task)) (task : Task),
        (∀ d ∈ task.dependencies, dictLookup reg d = none) →
          dependencies_met reg task = true :=
  claim1_registry_deps_completed_at_dispatch claim1Oracle
    "G" 1 { records := [] } claim1Event (by decide) "a" (by decide)
    claim1DepTask (by decide)

/-- C2 counterexample: in Scenario A the code does not skip t2. Tasks are
entered into the registry only when dispatched, so when t2 is evaluated
first its dependency t1 is absent from the registry and the gate passes:
t2 is dispatched (the dispatch trace is t2 then t1) and the final context
has completed_tasks = 2, not 1. -/
theorem claim2_counterexample :
    scenarioARun.1.map (fun e => e.task.id) = ["t2", "t1"]
    ∧ scenarioAContext = { completed_tasks := 2, total_tasks := 2 }
    ∧ ¬ scenarioAContext.completed_tasks = 1 := by decide

/-- C2 amended: in Scenario A the single pass evaluates t2 first by
priority; since tasks are registered only upon dispatch, the dependency
t1 is absent from the registry and treated as trivially satisfied, so t2
runs and becomes Completed, then t1 runs and becomes Completed; the final
context is total_tasks = 2 and completed_tasks = 2. -/
theorem claim2_amended_scenarioA :
    scenarioARun.1.map (fun e => e.task.id) = ["t2", "t1"]
    ∧ scenarioARun.1.map (fun e => dictContains e.registryAtDispatch "t1") = [false, false]
    ∧ (dictLookup scenarioARegistry "t1").map Task.status = some TaskStatus.completed
    ∧ (dictLookup scenarioARegistry "t2").map Task.status = some TaskStatus.completed
    ∧ scenarioAContext = { completed_tasks := 2, total_tasks := 2 } := by decide

/-- C3: the number of in-flight backend calls never exceeds the governor
capacity C (default 5): the wrapper acquires one unit before the call and
releases it on every exit path, success or failure, and every state the
governor can reach from a count within the capacity stays within the
capacity. -/
theorem claim3_governor_bound :
    apiCallSemaphoreCapacity = 5
    ∧ (∀ (backend : String → Except String String) (prompt : String),
        (generate_content_with_semaphore backend prompt).2
          = [GovEvent.acquire, GovEvent.release])
    ∧ ∀ (C n : Nat) (evs : List GovEvent) (m : Nat),
        n ≤ C → govRun C n evs = some m → m ≤ C := by
  refine ⟨rfl, ?_, ?_⟩
  · intro backend prompt
    unfold generate_content_with_semaphore
    cases backend prompt <;> rfl
  · intro C n evs
    induction evs generalizing n with
    | nil =>
      intro m hn hrun
      rw [govRun] at hrun
      cases hrun
      exact hn
    | cons e es ih =>
      intro m hn hrun
      rw [govRun] at hrun
      cases e with
      | acquire =>
        rw [govStep] at hrun
        by_cases hlt : n < C
        · rw [if_pos hlt] at hrun
          simp only at hrun
          exact ih (n + 1) m hlt hrun
        · rw [if_neg hlt] at hrun
          simp at hrun
      | release =>
        rw [govStep] at hrun
        simp only at hrun
        exact ih (n - 1) m (le_trans (Nat.sub_le n 1) hn) hrun

theorem claim3_witness :
    (1 : Nat) ≤ 5
    ∧ (generate_content_with_semaphore (fun _ => Except.error "backend down") "prompt").2
        = [GovEvent.acquire, GovEvent.release] :=
  ⟨claim3_governor_bound.2.2 5 0 [GovEvent.acquire, GovEvent.acquire, GovEvent.release] 1
      (by decide) (by decide),
    claim3_governor_bound.2.1 (fun _ => Except.error "backend down") "prompt"⟩

/-- C4: within one cycle the dispatch order over the task list is
non-increasing by priority, and the sort is stable: any two tasks of
which the second has priority at most the first (in particular any two
tasks of equal priority) keep their original generation order in the
sorted dispatch list. -/
theorem claim4_dispatch_order (o : Oracle) (cyc : Nat) (ts : List Task)
    (ag : AgentState) (mem : MemStore) :
    ((dispatchLoop o cyc (sortTasksByPriorityDesc ts) ag mem).1.map
        DispatchEvent.task).Pairwise taskGE
    ∧ ((dispatchLoop o cyc (sortTasksByPriorityDesc ts) ag mem).1.map
        DispatchEvent.task).Sublist (sortTasksByPriorityDesc ts)
    ∧ ∀ a b : Task, taskGE a b → [a, b].Sublist ts →
        [a, b].Sublist (sortTasksByPriorityDesc ts) := by
  unfold sortTasksByPriorityDesc
  refine ⟨?_, ?_, ?_⟩
  · exact List.Pairwise.sublist
      (dispatchLoop_events_sublist o cyc (ts.insertionSort taskGE) ag mem)
      (List.sorted_insertionSort taskGE ts)
  · exact dispatchLoop_events_sublist o cyc (ts.insertionSort taskGE) ag mem
  · intro a b hab hsub
    exact List.pair_sublist_insertionSort hab hsub

/-- Witness scenario for C4: two tasks of equal priority. -/
def w4a : Task := { id := "x", description := "task x", priority := 4 }

/-- Witness scenario for C4, the second equal-priority task. -/
def w4b : Task := { id := "y", description := "task y", priority := 4 }

theorem claim4_witness :
    ((dispatchLoop baseOracle 0 (sortTasksByPriorityDesc [w4a, w4b])
        { tasks := [], context := { completed_tasks := 0, total_tasks := 0 } }
        { records := [] }).1.map DispatchEvent.task).Pairwise taskGE
    ∧ [w4a, w4b].Sublist (sortTasksByPriorityDesc [w4a, w4b]) :=
  ⟨(claim4_dispatch_order baseOracle 0 [w4a, w4b]
      { tasks := [], context := { completed_tasks := 0, total_tasks := 0 } }
      { records := [] }).1,
    (claim4_dispatch_order baseOracle 0 [w4a, w4b]
      { tasks := [], context := { completed_tasks := 0, total_tasks := 0 } }
      { records := [] }).2.2 w4a w4b (by decide) (by decide)⟩

/-- An oracle whose responses are decodable but of the wrong shape: the
assessment response decodes to an empty array, the experience response to
an object whose learnings value is the number 5, and the planner response
to one conforming task. -/
def badExperienceOracle : Oracle :=
  { baseOracle with jsonLoads := fun s =>
      (if s = "experience text" then
        some (JsonVal.jobj [("learnings", JsonVal.jnum 5)])
      else if s = "assessment text" then
        some (JsonVal.jarr [])
      else if s = "plan text" then
        some (JsonVal.jarr [mkTaskJson "t1" "task one" 5 []])
      else none) }

/-- C5 counterexample: defensive parsing does not hold for every
malformed response. A backend response that json-decodes to an object
whose learnings value is the number 5 is malformed with respect to the
requested schema, yet the Integrator does not return its default: the
subscript raises an uncaught TypeError past its boundary and the whole
job fails; and the Assessor returns a decodable wrong-shape response
(an empty array) as-is instead of its fixed default. -/
theorem claim5_counterexample :
    integrate_experience badExperienceOracle 0 doneTask { records := [] }
      = Except.error "TypeError: the learnings value is not subscriptable"
    ∧ (run_pearl_cycle badExperienceOracle "G" 1 { records := [] }).status = "failed"
    ∧ self_assess badExperienceOracle 0 "G" { completed_tasks := 0, total_tasks := 0 }
        { records := [] } = Except.ok (JsonVal.jarr [])
    ∧ ¬ self_assess badExperienceOracle 0 "G" { completed_tasks := 0, total_tasks := 0 }
        { records := [] } = Except.ok defaultAssessmentJson := by
  refine ⟨rfl, rfl, rfl, ?_⟩
  intro h
  have hv : self_assess badExperienceOracle 0 "G"
      { completed_tasks := 0, total_tasks := 0 } { records := [] }
      = Except.ok (JsonVal.jarr []) := rfl
  have hcontra := Except.ok.inj (hv.symm.trans h)
  simp [defaultAssessmentJson] at hcontra

/-- C5 amended: each component substitutes its fixed default or fallback
only when the backend output fails to json-decode (for the Integrator
also when the attribute access on a decoded non-dict fails); in
particular a non-decodable Planner output yields the documented fallback
task set. Decodable output of the wrong shape is not defended against:
the Assessor returns it unvalidated instead of its default, and the
Integrator raises an uncaught TypeError past its boundary, failing the
job, whenever the decoded learnings value is truthy but neither a list
nor a string. -/
theorem claim5_amended_decode_failure_fallbacks
    (o : Oracle) (cyc : Nat) (goal : String) (ctx : Context) (mem : MemStore)
    (assessment : JsonVal) (task : Task) (sA sP sE : String)
    (hA : o.assessResponse cyc goal ctx (retrieve_relevant_memories o mem goal 3)
        = Except.ok sA)
    (hP : o.planResponse cyc goal assessment = Except.ok sP)
    (hE : o.integrateResponse cyc task = Except.ok sE) :
    (o.jsonLoads sA = none →
        self_assess o cyc goal ctx mem = Except.ok defaultAssessmentJson)
    ∧ (∀ v, o.jsonLoads sA = some v → self_assess o cyc goal ctx mem = Except.ok v)
    ∧ (o.jsonLoads sP = none →
        adaptive_plan o cyc goal assessment = Except.ok fallbackTasks)
    ∧ (o.jsonLoads sE = none →
        integrate_experience o cyc task mem = Except.ok (defaultExperienceJson, mem))
    ∧ (∀ (fields : List (String × JsonVal)) (lv : JsonVal),
        o.jsonLoads sE = some (JsonVal.jobj fields) →
        task.status = TaskStatus.completed →
        dictLookup fields "learnings" = some lv → jsonTruthy lv = true →
        (∀ xs, lv ≠ JsonVal.jarr xs) → (∀ s, lv ≠ JsonVal.jstr s) →
        integrate_experience o cyc task mem
          = Except.error "TypeError: the learnings value is not subscriptable") := by
  refine ⟨?_, ?_, ?_, ?_, ?_⟩
  · intro hd
    simp only [self_assess, hA, hd]
  · intro v hd
    simp only [self_assess, hA, hd]
  · intro hd
    simp only [adaptive_plan, hP, hd]
  · intro hd
    simp only [integrate_experience, hE, hd]
  · intro fields lv hjl hst hlk htr hna hns
    cases lv with
    | jnull => simp [jsonTruthy] at htr
    | jbool b =>
      cases b with
      | false => simp [jsonTruthy] at htr
      | true => simp [integrate_experience, hE, hjl, hst, hlk, jsonTruthy]
    | jnum n =>
      simp [integrate_experience, hE, hjl, hst, hlk, htr]
    | jstr s => exact absurd rfl (hns s)
    | jarr xs => exact absurd rfl (hna xs)
    | jobj fs =>
      simp [integrate_experience, hE, hjl, hst, hlk, htr]

theorem claim5_witness :
    (self_assess baseOracle 0 "G" { completed_tasks := 0, total_tasks := 0 }
        { records := [] } = Except.ok defaultAssessmentJson)
    ∧ (adaptive_plan baseOracle 0 "G" defaultAssessmentJson = Except.ok fallbackTasks)
    ∧ (integrate_experience baseOracle 0 doneTask { records := [] }
        = Except.ok (defaultExperienceJson, { records := [] }))
    ∧ (self_assess badExperienceOracle 0 "G" { completed_tasks := 0, total_tasks := 0 }
        { records := [] } = Except.ok (JsonVal.jarr []))
    ∧ (integrate_experience badExperienceOracle 0 doneTask { records := [] }
        = Except.error "TypeError: the learnings value is not subscriptable") :=
  ⟨(claim5_amended_decode_failure_fallbacks baseOracle 0 "G"
      { completed_tasks := 0, total_tasks := 0 } { records := [] }
      defaultAssessmentJson doneTask "assessment text" "plan text" "experience text"
      rfl rfl rfl).1 rfl,
    (claim5_amended_decode_failure_fallbacks baseOracle 0 "G"
      { completed_tasks := 0, total_tasks := 0 } { records := [] }
      defaultAssessmentJson doneTask "assessment text" "plan text" "experience text"
      rfl rfl rfl).2.2.1 rfl,
    (claim5_amended_decode_failure_fallbacks baseOracle 0 "G"
      { completed_tasks := 0, total_tasks := 0 } { records := [] }
      defaultAssessmentJson doneTask "assessment text" "plan text" "experience text"
      rfl rfl rfl).2.2.2.1 rfl,
    (claim5_amended_decode_failure_fallbacks badExperienceOracle 0 "G"
      { completed_tasks := 0, total_tasks := 0 } { records := [] }
      defaultAssessmentJson doneTask "assessment text" "plan text" "experience text"
      rfl rfl rfl).2.1 (JsonVal.jarr []) rfl,
    (claim5_amended_decode_failure_fallbacks badExperienceOracle 0 "G"
      { completed_tasks := 0, total_tasks := 0 } { records := [] }
      defaultAssessmentJson doneTask "assessment text" "plan text" "experience text"
      rfl rfl rfl).2.2.2.2 [("learnings", JsonVal.jnum 5)] (JsonVal.jnum 5)
      rfl rfl rfl rfl (fun _ h => JsonVal.noConfusion h)
      (fun _ h => JsonVal.noConfusion h)⟩

/-- C6: any unrecovered error in a cycle aborts the job immediately: the
status becomes failed, the error message is attached under the error key
of the detail log, and every other detail entry present at the moment of
failure (in particular the entries of all cycles completed before the
failure) is unchanged in the final detail log. -/
theorem claim6_failure_aborts_job
    (o : Oracle) (goal : String) (iterations : Nat) (mem0 : MemStore)
    (e : String) (j : Job)
    (h : (runPearlLoop o goal iterations mem0).2 = Except.error (e, j)) :
    (run_pearl_cycle o goal iterations mem0).status = "failed"
    ∧ dictLookup (run_pearl_cycle o goal iterations mem0).details "error"
        = some (DetailVal.str e)
    ∧ ∀ (k : String) (v : DetailVal), k ≠ "error" → dictLookup j.details k = some v →
        dictLookup (run_pearl_cycle o goal iterations mem0).details k = some v := by
  unfold run_pearl_cycle
  rw [h]
  refine ⟨rfl, ?_, ?_⟩
  · exact dictLookup_dictInsert_self j.details "error" (DetailVal.str e)
  · intro k v hk hv
    show dictLookup (dictInsert j.details "error" (DetailVal.str e)) k = some v
    rw [dictLookup_dictInsert_ne _ _ _ _ hk]
    exact hv

/-- An oracle whose assessment backend call fails, for the C6 witness. -/
def failOracle : Oracle :=
  { baseOracle with assessResponse := fun _ _ _ _ => Except.error "backend down" }

/-- The job state at the moment of failure in the C6 witness run. -/
def claim6Job : Job :=
  match (runPearlLoop failOracle "G" 1 { records := [] }).2 with
  | Except.error (_, j) => j
  | Except.ok (_, _, j) => j

theorem claim6_witness :
    (run_pearl_cycle failOracle "G" 1 { records := [] }).status = "failed"
    ∧ dictLookup (run_pearl_cycle failOracle "G" 1 { records := [] }).details
        "error" = some (DetailVal.str "backend down")
    ∧ dictLookup (run_pearl_cycle failOracle "G" 1 { records := [] }).details
        "goal" = some (DetailVal.str "G") :=
  have h : (runPearlLoop failOracle "G" 1 { records := [] }).2
      = Except.error ("backend down", claim6Job) := rfl
  ⟨(claim6_failure_aborts_job failOracle "G" 1 { records := [] }
      "backend down" claim6Job h).1,
    (claim6_failure_aborts_job failOracle "G" 1 { records := [] }
      "backend down" claim6Job h).2.1,
    (claim6_failure_aborts_job failOracle "G" 1 { records := [] }
      "backend down" claim6Job h).2.2 "goal" (DetailVal.str "G") (by decide) rfl⟩

/-- C7: add_memory never propagates an error to its caller: for every
input it returns normally, and on any failure of the similarity backend
inside the critical section the exception is swallowed and the store is
returned unchanged. -/
theorem claim7_add_memory_never_propagates (o : Oracle) (store : MemStore)
    (task_description learning : String) :
    (∃ m : MemStore, add_memory o store task_description learning = Except.ok m)
    ∧ ∀ err : String,
        o.memAdd (toString (o.hashFn (memoryTextOf task_description learning)))
            (memoryTextOf task_description learning) = Except.error err →
        add_memory o store task_description learning = Except.ok store := by
  cases hm : o.memAdd (toString (o.hashFn (memoryTextOf task_description learning)))
      (memoryTextOf task_description learning) with
  | ok u =>
    constructor
    · exact ⟨{ records := store.records ++
          [(toString (o.hashFn (memoryTextOf task_description learning)),
            memoryTextOf task_description learning)] },
        by simp only [add_memory, hm]⟩
    · intro err herr
      cases herr
  | error err0 =>
    constructor
    · exact ⟨store, by simp only [add_memory, hm]⟩
    · intro err herr
      simp only [add_memory, hm]

/-- An oracle whose similarity-backend add fails, for the C7 witness. -/
def memFailOracle : Oracle :=
  { baseOracle with memAdd := fun _ _ => Except.error "chroma down" }

theorem claim7_witness :
    (∃ m : MemStore,
        add_memory memFailOracle { records := [] } "desc" "learning" = Except.ok m)
    ∧ add_memory memFailOracle { records := [] } "desc" "learning"
        = Except.ok { records := [] } :=
  ⟨(claim7_add_memory_never_propagates memFailOracle { records := [] } "desc" "learning").1,
    (claim7_add_memory_never_propagates memFailOracle { records := [] } "desc" "learning").2
      "chroma down" rfl⟩

/-- C8: retrieve on an empty store returns the empty-result sentinel and
never an error; on any store it requests min(k, storedCount) records from
the similarity backend, and whenever the backend honours its contract of
returning at most as many records as requested, the retrieved records
number at most min(k, storedCount). -/
theorem claim8_retrieve_bounds (o : Oracle) (store : MemStore) (query : String) (k : Nat)
    (hcontract : ∀ (q : String) (n : Nat) (docs : List String),
        o.memQuery q n = Except.ok docs → docs.length ≤ n) :
    (store.records.length = 0 →
        retrieve_relevant_memories o store query k = "No memories available yet.")
    ∧ retrieveQueriedDocs o store query k = o.memQuery query (min k store.records.length)
    ∧ ∀ docs : List String, retrieveQueriedDocs o store query k = Except.ok docs →
        docs.length ≤ min k store.records.length := by
  refine ⟨?_, rfl, ?_⟩
  · intro h0
    rw [retrieve_relevant_memories, if_pos h0]
  · intro docs hd
    exact hcontract query (min k store.records.length) docs hd

/-- An oracle whose similarity backend returns at most one record and
never more than requested, for the C8 witness. -/
def claim8Oracle : Oracle :=
  { baseOracle with memQuery := fun _ n => Except.ok (List.replicate (min n 1) "recalled") }

/-- A one-record store for the C8 witness. -/
def claim8Store : MemStore := { records := [("id1", "stored memory")] }

theorem claim8Oracle_contract (q : String) (n : Nat) (docs : List String)
    (h : claim8Oracle.memQuery q n = Except.ok docs) : docs.length ≤ n := by
  simp only [claim8Oracle, baseOracle] at h
  cases h
  simp only [List.length_replicate]
  omega

theorem claim8_witness :
    retrieve_relevant_memories claim8Oracle { records := [] } "q" 3
      = "No memories available yet."
    ∧ retrieveQueriedDocs claim8Oracle claim8Store "q" 3
        = claim8Oracle.memQuery "q" (min 3 claim8Store.records.length)
    ∧ (["recalled"] : List String).length ≤ min 3 claim8Store.records.length :=
  ⟨(claim8_retrieve_bounds claim8Oracle { records := [] } "q" 3 claim8Oracle_contract).1 rfl,
    (claim8_retrieve_bounds claim8Oracle claim8Store "q" 3 claim8Oracle_contract).2.1,
    (claim8_retrieve_bounds claim8Oracle claim8Store "q" 3 claim8Oracle_contract).2.2
      ["recalled"] rfl⟩

/-- C9 duplicate-identifier scenario, first task. -/
def dup1 : Task := { id := "d", description := "first version", priority := 3 }

/-- C9 duplicate-identifier scenario, second task with the same id. -/
def dup2 : Task := { id := "d", description := "second version", priority := 3 }

/-- The C9 oracle: the planner produces two tasks with the same id. -/
def claim9Oracle : Oracle :=
  planOracle [mkTaskJson "d" "first version" 3 [], mkTaskJson "d" "second version" 3 []]

/-- The C9 run. -/
def claim9Run : List DispatchEvent × Except (String × Job) (AgentState × MemStore × Job) :=
  runPearlLoop claim9Oracle "G" 1 { records := [] }

/-- The final registry of the C9 run. -/
def claim9Registry : List (String × Task) :=
  match claim9Run.2 with
  | Except.ok (ag, _, _) => ag.tasks
  | Except.error _ => []

/-- C9 counterexample: the planner output is not validated for unique
task identifiers before being merged into the registry. A produced set
with the duplicate identifier d passes through adaptive_plan unchanged,
both duplicates are dispatched, and the later one silently overwrites
the earlier one in the registry, which ends with a single entry holding
the second version. -/
theorem claim9_counterexample :
    adaptive_plan claim9Oracle 0 "G" defaultAssessmentJson
      = Except.ok [dup1, dup2]
    ∧ claim9Run.1.map (fun e => e.task.description)
        = ["first version", "second version"]
    ∧ claim9Registry.length = 1
    ∧ (dictLookup claim9Registry "d").map Task.description = some "second version" :=
  ⟨rfl, by decide, by decide, by decide⟩

/-- C9 amended: no uniqueness validation is performed on the produced
task set: whatever task list the decoded planner output constructs is
returned as-is, duplicates included, and merging a task into the
registry under an identifier overwrites any earlier task stored under
that identifier. -/
theorem claim9_amended_no_validation
    (o : Oracle) (cyc : Nat) (goal : String) (a : JsonVal)
    (s : String) (v : JsonVal) (ts : List Task)
    (hresp : o.planResponse cyc goal a = Except.ok s)
    (hdec : o.jsonLoads s = some v)
    (hconv : tasksFromJson v = some ts) :
    adaptive_plan o cyc goal a = Except.ok ts
    ∧ ∀ (reg : List (String × Task)) (k : String) (v0 : Task),
        dictLookup (dictInsert reg k v0) k = some v0 := by
  constructor
  · simp only [adaptive_plan, hresp, hdec, hconv]
  · exact fun reg k v0 => dictLookup_dictInsert_self reg k v0

theorem claim9_witness :
    adaptive_plan claim9Oracle 0 "G" defaultAssessmentJson
      = Except.ok [dup1, dup2]
    ∧ dictLookup (dictInsert [("d", dup1)] "d" dup2) "d" = some dup2 :=
  ⟨(claim9_amended_no_validation claim9Oracle 0 "G" defaultAssessmentJson "plan text"
      (JsonVal.jarr [mkTaskJson "d" "first version" 3 [],
        mkTaskJson "d" "second version" 3 []])
      [dup1, dup2] rfl rfl rfl).1,
    (claim9_amended_no_validation claim9Oracle 0 "G" defaultAssessmentJson "plan text"
      (JsonVal.jarr [mkTaskJson "d" "first version" 3 [],
        mkTaskJson "d" "second version" 3 []])
      [dup1, dup2] rfl rfl rfl).2 [("d", dup1)] "d" dup2⟩

/-- C10: integrate_experience writes to the memory store only when the
executed task is Completed and the decoded backend output is an object
with a non-empty learnings list, in which case, the backend add
succeeding, it appends exactly one record derived from the first
learning; on a decode failure, a decoded non-object, an absent or falsy
learnings value, or a non-completed task, the memory store is left
unchanged by the integration step. -/
theorem claim10_integrate_frame
    (o : Oracle) (cyc : Nat) (task : Task) (mem : MemStore) (sE : String)
    (hresp : o.integrateResponse cyc task = Except.ok sE) :
    (∀ (fields : List (String × JsonVal)) (l : String) (ls : List JsonVal),
        o.jsonLoads sE = some (JsonVal.jobj fields) →
        task.status = TaskStatus.completed →
        dictLookup fields "learnings" = some (JsonVal.jarr (JsonVal.jstr l :: ls)) →
        o.memAdd (toString (o.hashFn (memoryTextOf task.description l)))
            (memoryTextOf task.description l) = Except.ok () →
        integrate_experience o cyc task mem = Except.ok (JsonVal.jobj fields,
          { records := mem.records ++
              [(toString (o.hashFn (memoryTextOf task.description l)),
                memoryTextOf task.description l)] }))
    ∧ (o.jsonLoads sE = none →
        integrate_experience o cyc task mem = Except.ok (defaultExperienceJson, mem))
    ∧ (∀ v, o.jsonLoads sE = some v → task.status = TaskStatus.completed →
        (∀ fs, v ≠ JsonVal.jobj fs) →
        integrate_experience o cyc task mem = Except.ok (defaultExperienceJson, mem))
    ∧ (∀ fields, o.jsonLoads sE = some (JsonVal.jobj fields) →
        dictLookup fields "learnings" = none →
        integrate_experience o cyc task mem = Except.ok (JsonVal.jobj fields, mem))
    ∧ (∀ fields lv, o.jsonLoads sE = some (JsonVal.jobj fields) →
        dictLookup fields "learnings" = some lv → jsonTruthy lv = false →
        integrate_experience o cyc task mem = Except.ok (JsonVal.jobj fields, mem))
    ∧ (∀ v, o.jsonLoads sE = some v → task.status ≠ TaskStatus.completed →
        integrate_experience o cyc task mem = Except.ok (v, mem)) := by
  refine ⟨?_, ?_, ?_, ?_, ?_, ?_⟩
  · intro fields l ls hjl hst hlk hadd
    simp [integrate_experience, hresp, hjl, hst, hlk, jsonTruthy, pyStr, add_memory, hadd]
  · intro hd
    simp only [integrate_experience, hresp, hd]
  · intro v hjl hst hno
    cases v with
    | jobj fs => exact absurd rfl (hno fs)
    | jnull => simp [integrate_experience, hresp, hjl, hst]
    | jbool b => simp [integrate_experience, hresp, hjl, hst]
    | jnum n => simp [integrate_experience, hresp, hjl, hst]
    | jstr s => simp [integrate_experience, hresp, hjl, hst]
    | jarr xs => simp [integrate_experience, hresp, hjl, hst]
  · intro fields hjl hlk
    by_cases hst : task.status = TaskStatus.completed
    · simp [integrate_experience, hresp, hjl, hst, hlk]
    · simp [integrate_experience, hresp, hjl, hst]
  · intro fields lv hjl hlk htr
    by_cases hst : task.status = TaskStatus.completed
    · simp [integrate_experience, hresp, hjl, hst, hlk, htr]
    · simp [integrate_experience, hresp, hjl, hst]
  · intro v hjl hst
    simp [integrate_experience, hresp, hjl, hst]

/-- The decoded experience object of the C10 witness. -/
def expJson : JsonVal :=
  JsonVal.jobj
    [("learnings", JsonVal.jarr [JsonVal.jstr "insight one", JsonVal.jstr "insight two"]),
     ("adjustments", JsonVal.jarr []),
     ("confidence_boost", JsonVal.jnum 1)]

/-- An oracle whose experience response decodes to expJson. -/
def claim10Oracle : Oracle :=
  { baseOracle with jsonLoads := fun s =>
      if s = "experience text" then some expJson else none }

theorem claim10_witness :
    integrate_experience claim10Oracle 0 doneTask { records := [] }
      = Except.ok (expJson,
          { records :=
              [(toString (claim10Oracle.hashFn
                  (memoryTextOf doneTask.description "insight one")),
                memoryTextOf doneTask.description "insight one")] }) :=
  (claim10_integrate_frame claim10Oracle 0 doneTask { records := [] }
      "experience text" rfl).1
    [("learnings", JsonVal.jarr [JsonVal.jstr "insight one", JsonVal.jstr "insight two"]),
     ("adjustments", JsonVal.jarr []),
     ("confidence_boost", JsonVal.jnum 1)]
    "insight one" [JsonVal.jstr "insight two"] rfl rfl rfl rfl

end Pearl
